import Mathlib

/-!
Verification of the Entelech sales-process automation engine
(`src/sales_automation_engine.py`) against its natural-language
specification.

The Python source is shallowly embedded: numeric values that the source
stores as Python `int`/`float` are modelled as `Nat`/`ℚ` (the spec, §6,
declares money to be exact decimal quantities, so decimal literals such as
`0.3` are embedded as the exact rationals `3/10`); SQLite tables are
modelled as Lean lists of row structures; a fetched row is modelled by a
structure carrying the columns the embedded method reads; methods that
return `None` on failure are embedded with `Option`; Python exceptions that
escape an embedded expression are modelled with `Except PyError`.
-/

/-- Runtime exceptions that the embedded Python code can raise.
`attributeError` models `AttributeError` (an attribute lookup on an object
that lacks it); `operationalError` models `sqlite3.OperationalError`
(a SQL statement that SQLite cannot prepare or execute). -/
inductive PyError where
  | attributeError
  | operationalError
  deriving DecidableEq

/-- The system clock, injected where the source calls `datetime.now()`.
Carries the formatted projections and the day count the embedded code
consumes: `yyyymm` is `strftime('%Y%m')`, `yymm` is `strftime('%y%m')`,
`longDate` is `strftime('%B %d, %Y')`, `yyyymmdd` is `strftime('%Y%m%d')`,
and `today` is `datetime.now().date()` as a day number, so that
`+ timedelta(days = n)` becomes `+ n`. -/
structure Clock where
  yyyymm : String
  yymm : String
  longDate : String
  yyyymmdd : String
  today : Nat
  deriving DecidableEq

/-- Zero-padded decimal rendering, embedding Python format specifiers such
as `{n:04d}` (as `pad 4 n`) and `{n:03d}` (as `pad 3 n`). -/
def pad (width n : Nat) : String :=
  let s := toString n
  String.mk (List.replicate (width - s.length) '0') ++ s

/-- `qualified_status` values, from the `QualificationStatus` enum of the
source. -/
inductive QualificationStatus where
  | qualified
  | disqualified
  | nurture
  | pending_review
  deriving DecidableEq

/-- The fields of the `DiscoveryCallData` dataclass (equivalently, of a
`discovery_calls` row) that the embedded computations read.  The remaining
dataclass fields (contact identities, narrative text, call metadata) are
never consulted by the scoring or pricing code and are omitted.
`decision_maker_name` is `Optional[str]`; the source tests it for Python
truthiness, so both `none` and `some ""` count as absent. -/
structure DiscoveryCallData where
  company_size : String
  industry : String
  decision_maker_name : Option String
  time_waste_hours_weekly : Nat
  estimated_cost_inefficiency : ℚ
  team_size_affected : Nat
  budget_range : String
  timeline_urgency : String
  deriving DecidableEq

/-- Pain-level score (0-10) from `_calculate_qualification_scores`:
three additive contributions, clamped to 10 by `min`. -/
def pain_score (cd : DiscoveryCallData) : Nat :=
  let p : Nat :=
    (if cd.time_waste_hours_weekly > 20 then 4
     else if cd.time_waste_hours_weekly > 10 then 2
     else if cd.time_waste_hours_weekly > 5 then 1
     else 0)
  let p := p +
    (if cd.estimated_cost_inefficiency > 100000 then 4
     else if cd.estimated_cost_inefficiency > 50000 then 3
     else if cd.estimated_cost_inefficiency > 25000 then 2
     else if cd.estimated_cost_inefficiency > 10000 then 1
     else 0)
  let p := p +
    (if cd.team_size_affected > 10 then 2
     else if cd.team_size_affected > 5 then 1
     else 0)
  min p 10

/-- The `budget_mapping` table with its `.get(..., 3)` default. -/
def budget_mapping (s : String) : Nat :=
  if s = "under_25k" then 2
  else if s = "25k_50k" then 4
  else if s = "50k_100k" then 6
  else if s = "100k_250k" then 8
  else if s = "250k_plus" then 10
  else if s = "not_disclosed" then 3
  else 3

/-- Budget-authority score (0-10): table lookup, plus 2 when a decision
maker name is present (Python truthiness: a non-empty string), clamped. -/
def budget_score (cd : DiscoveryCallData) : Nat :=
  let b := budget_mapping cd.budget_range
  let b := b + (if cd.decision_maker_name.getD "" ≠ "" then 2 else 0)
  min b 10

/-- Timeline-urgency score: the `urgency_mapping` table with its
`.get(..., 3)` default. -/
def timeline_score (cd : DiscoveryCallData) : Nat :=
  if cd.timeline_urgency = "immediate" then 10
  else if cd.timeline_urgency = "1_month" then 8
  else if cd.timeline_urgency = "3_months" then 6
  else if cd.timeline_urgency = "6_months" then 4
  else if cd.timeline_urgency = "12_months" then 2
  else 3

/-- The `size_scoring` table with its `.get(..., 1)` default. -/
def size_scoring (s : String) : Nat :=
  if s = "11-50" then 2
  else if s = "51-200" then 3
  else if s = "201-500" then 2
  else if s = "501-1000" then 1
  else if s = "1000+" then 1
  else if s = "1-10" then 1
  else 1

/-- The `high_fit_industries` list. -/
def high_fit_industries : List String :=
  ["technology", "professional services", "healthcare", "finance", "real estate"]

/-- Technical-fit score (0-10): base 5, size bonus, industry bonus
(case-insensitive membership), clamped. -/
def technical_score (cd : DiscoveryCallData) : Nat :=
  let t := 5 + size_scoring cd.company_size
  let t := t + (if high_fit_industries.contains cd.industry.toLower then 2 else 0)
  min t 10

/-- Fuel-bounded binary digit count: `nbitsAux fuel n` is the number of
binary digits of `n` for any `n < 2 ^ fuel` (structural recursion on the
fuel keeps it kernel-reducible). -/
def nbitsAux : Nat → Nat → Nat
  | 0, _ => 0
  | fuel + 1, n => if n = 0 then 0 else nbitsAux fuel (n / 2) + 1

/-- Binary digit count, valid for every `n < 2 ^ 200` — far beyond the
scaled values arising below (all under `2 ^ 64`). -/
def nbits (n : Nat) : Nat := nbitsAux 200 n

/-- IEEE-754 binary64 rounding (round to nearest, ties to even
significand) for the non-negative values of the score computation, carried
exactly as integer multiples of `2 ^ (-55)` (that is, scaled by `2 ^ 55`).
Every value arising in that computation is either 0 or lies in
`[2 ^ (-3), 2 ^ 9)`, a range in which every binary64 double is itself a
multiple of `2 ^ (-55)`, so the representation is closed under rounding.
A value whose scaled form `v` has `bl ≤ 53` binary digits carries at most
53 significant bits and is exactly representable; otherwise the double's
unit in the last place is `2 ^ (bl - 53)` at this scale, and `v` is rounded
to the nearest multiple, ties going to the even multiple. -/
def round_to_binary64 (v : Nat) : Nat :=
  let bl := nbits v
  if bl ≤ 53 then v
  else
    let u := 2 ^ (bl - 53)
    let q := v / u
    let r := v % u
    let h := u / 2
    if r < h then q * u
    else if h < r then (q + 1) * u
    else if q % 2 = 0 then q * u else (q + 1) * u

/-- The binary64 double denoted by the literal `0.3`
(`5404319552844595 * 2 ^ (-54)`), scaled by `2 ^ 55`; certified nearest to
`3/10` by `float_03_is_nearest_double`. -/
def float_03 : Nat := 10808639105689190

/-- The binary64 double denoted by the literal `0.2`
(`3602879701896397 * 2 ^ (-54)`), scaled by `2 ^ 55`; certified nearest to
`2/10` by `float_02_is_nearest_double`. -/
def float_02 : Nat := 7205759403792794

/-- `float_03` scales a representable double of the binade of `3/10`
(a multiple of the ulp `2 ^ (-54)` with a 53-bit significand) lying within
half an ulp (`2 ^ (-55)`) of `3/10` — so it is the nearest double to 0.3
(the distance is not exactly half an ulp, so the nearest is unique). -/
theorem float_03_is_nearest_double :
    float_03 % 2 = 0 ∧ float_03 / 2 < 2 ^ 53
    ∧ |(float_03 : ℚ) / 2 ^ 55 - 3 / 10| < 1 / 2 ^ 55 := by
  refine ⟨by decide, by decide, ?_⟩
  rw [abs_lt]
  constructor <;> norm_num [float_03]

/-- `float_02` scales a representable double of the binade of `2/10`
(a multiple of the ulp `2 ^ (-55)` with a 53-bit significand) lying within
half an ulp (`2 ^ (-56)`) of `2/10` — so it is the nearest double to 0.2. -/
theorem float_02_is_nearest_double :
    float_02 % 2 = 0 ∧ float_02 / 2 < 2 ^ 53
    ∧ |(float_02 : ℚ) / 2 ^ 55 - 2 / 10| < 1 / 2 ^ 56 := by
  refine ⟨by decide, by decide, ?_⟩
  rw [abs_lt]
  constructor <;> norm_num [float_02]

/-- Overall score, embedding line 289 of the source:
`int((pain_score*0.3 + budget_score*0.3 + timeline_score*0.2 +
technical_score*0.2) * 10)` with the IEEE-754 binary64 semantics CPython
gives it.  The literals `0.3` and `0.2` denote the nearest doubles
(`float_03`, `float_02`); the `int` operands convert to double exactly
(they are at most 10); each product and each left-associated sum is
rounded to the nearest double by `round_to_binary64`; the final `int()`
truncates the non-negative product toward zero, which on the scaled
representation is division by `2 ^ 55`.  All intermediate values are
carried exactly, scaled by `2 ^ 55`. -/
def overall_score_of (p b t f : Nat) : Nat :=
  let s1 := round_to_binary64 (p * float_03)
  let s2 := round_to_binary64 (s1 + round_to_binary64 (b * float_03))
  let s3 := round_to_binary64 (s2 + round_to_binary64 (t * float_02))
  let s4 := round_to_binary64 (s3 + round_to_binary64 (f * float_02))
  round_to_binary64 (s4 * 10) / 2 ^ 55

/-- Status thresholds on the overall score. -/
def qualification_status_of (overall : Nat) : QualificationStatus :=
  if overall ≥ 70 then .qualified
  else if overall ≥ 50 then .nurture
  else if overall ≥ 30 then .pending_review
  else .disqualified

/-- The dictionary returned by `_calculate_qualification_scores`. -/
structure QualificationResult where
  pain_level : Nat
  budget_authority : Nat
  timeline_urgency : Nat
  technical_fit : Nat
  overall_score : Nat
  status : QualificationStatus
  deriving DecidableEq

/-- Embedding of `_calculate_qualification_scores`. -/
def calculate_qualification_scores (cd : DiscoveryCallData) : QualificationResult :=
  let p := pain_score cd
  let b := budget_score cd
  let t := timeline_score cd
  let f := technical_score cd
  let overall := overall_score_of p b t f
  { pain_level := p
    budget_authority := b
    timeline_urgency := t
    technical_fit := f
    overall_score := overall
    status := qualification_status_of overall }

/-! ### Supporting lemmas for the scorer -/

theorem pain_score_le_ten (cd : DiscoveryCallData) : pain_score cd ≤ 10 :=
  Nat.min_le_right _ _

theorem budget_score_le_ten (cd : DiscoveryCallData) : budget_score cd ≤ 10 :=
  Nat.min_le_right _ _

theorem timeline_score_le_ten (cd : DiscoveryCallData) : timeline_score cd ≤ 10 := by
  rw [timeline_score]
  split <;> try omega
  split <;> try omega
  split <;> try omega
  split <;> try omega
  split <;> omega

theorem technical_score_le_ten (cd : DiscoveryCallData) : technical_score cd ≤ 10 :=
  Nat.min_le_right _ _

theorem qualification_status_iff (n : Nat) :
    (qualification_status_of n = .qualified ↔ 70 ≤ n)
    ∧ (qualification_status_of n = .nurture ↔ 50 ≤ n ∧ n < 70)
    ∧ (qualification_status_of n = .pending_review ↔ 30 ≤ n ∧ n < 50)
    ∧ (qualification_status_of n = .disqualified ↔ n < 30) := by
  rw [qualification_status_of]
  split <;> rename_i h1
  · exact ⟨by simp; omega, by simp; omega, by simp; omega, by simp; omega⟩
  · split <;> rename_i h2
    · exact ⟨by simp; omega, by simp; omega, by simp; omega, by simp; omega⟩
    · split <;> rename_i h3
      · exact ⟨by simp; omega, by simp; omega, by simp; omega, by simp; omega⟩
      · exact ⟨by simp; omega, by simp; omega, by simp; omega, by simp; omega⟩

/-- An intake record with no pain signals, an undisclosed budget and no
decision maker, a 12-month timeline, company size `11-50` and a high-fit
industry: its sub-scores are `(pain, budget, timeline, technical)
= (0, 3, 2, 9)`. -/
def truncation_example_call : DiscoveryCallData :=
  { company_size := "11-50"
    industry := "technology"
    decision_maker_name := none
    time_waste_hours_weekly := 0
    estimated_cost_inefficiency := 0
    team_size_affected := 0
    budget_range := "not_disclosed"
    timeline_urgency := "12_months" }

/-- An intake record with more than 20 weekly waste hours (pain 4), budget
range `100k_250k` (budget 8), a 1-month timeline (timeline 8), company
size `11-50` and a high-fit industry (technical 9): sub-scores
`(4, 8, 8, 9)`. -/
def qualified_flip_call : DiscoveryCallData :=
  { company_size := "11-50"
    industry := "technology"
    decision_maker_name := none
    time_waste_hours_weekly := 25
    estimated_cost_inefficiency := 0
    team_size_affected := 0
    budget_range := "100k_250k"
    timeline_urgency := "1_month" }

/-- C5.  The claim says the overall qualification score equals
`round(10 * (0.3*pain + 0.3*budget + 0.2*timeline + 0.2*technical))`.  The
source computes `int(...)` of that product over binary64 floats, and the
truncation falls below the exact integer on reachable intake records: the
first record below yields sub-scores `(0, 3, 2, 9)`, where the float
product is `30.999999999999996` and the code stores 30 while the claim's
round formula gives 31; the second yields `(4, 8, 8, 9)`, where the code
stores 69 and classifies the prospect `nurture` although the formula gives
70, whose status would be `qualified` — the float slip crosses the
qualification threshold itself. -/
theorem overall_score_truncation_bug :
    (calculate_qualification_scores truncation_example_call).pain_level = 0
    ∧ (calculate_qualification_scores truncation_example_call).budget_authority = 3
    ∧ (calculate_qualification_scores truncation_example_call).timeline_urgency = 2
    ∧ (calculate_qualification_scores truncation_example_call).technical_fit = 9
    ∧ (calculate_qualification_scores truncation_example_call).overall_score = 30
    ∧ round ((10 : ℚ) * ((3/10) * 0 + (3/10) * 3 + (2/10) * 2 + (2/10) * 9)) = 31
    ∧ (calculate_qualification_scores qualified_flip_call).pain_level = 4
    ∧ (calculate_qualification_scores qualified_flip_call).budget_authority = 8
    ∧ (calculate_qualification_scores qualified_flip_call).timeline_urgency = 8
    ∧ (calculate_qualification_scores qualified_flip_call).technical_fit = 9
    ∧ (calculate_qualification_scores qualified_flip_call).overall_score = 69
    ∧ (calculate_qualification_scores qualified_flip_call).status
        = QualificationStatus.nurture
    ∧ round ((10 : ℚ) * ((3/10) * 4 + (3/10) * 8 + (2/10) * 8 + (2/10) * 9)) = 70 := by
  have hlow1 : truncation_example_call.industry.toLower = "technology" := by
    show "technology".toLower = "technology"
    rw [String.toLower, String.map_eq]
    decide
  have htech1 : technical_score truncation_example_call = 9 := by
    rw [technical_score, hlow1]
    decide
  have hlow2 : qualified_flip_call.industry.toLower = "technology" := by
    show "technology".toLower = "technology"
    rw [String.toLower, String.map_eq]
    decide
  have htech2 : technical_score qualified_flip_call = 9 := by
    rw [technical_score, hlow2]
    decide
  have hpain1 : pain_score truncation_example_call = 0 := by decide
  have hbud1 : budget_score truncation_example_call = 3 := by decide
  have htime1 : timeline_score truncation_example_call = 2 := by decide
  have hpain2 : pain_score qualified_flip_call = 4 := by decide
  have hbud2 : budget_score qualified_flip_call = 8 := by decide
  have htime2 : timeline_score qualified_flip_call = 8 := by decide
  refine ⟨?_, ?_, ?_, ?_, ?_, ?_, ?_, ?_, ?_, ?_, ?_, ?_, ?_⟩
  · rw [calculate_qualification_scores]
    dsimp only
    exact hpain1
  · rw [calculate_qualification_scores]
    dsimp only
    exact hbud1
  · rw [calculate_qualification_scores]
    dsimp only
    exact htime1
  · rw [calculate_qualification_scores]
    dsimp only
    exact htech1
  · rw [calculate_qualification_scores]
    dsimp only
    rw [hpain1, hbud1, htime1, htech1]
    decide
  · have h : ((10 : ℚ) * ((3/10) * 0 + (3/10) * 3 + (2/10) * 2 + (2/10) * 9))
        = ((31 : ℤ) : ℚ) := by norm_num
    rw [h, round_intCast]
  · rw [calculate_qualification_scores]
    dsimp only
    exact hpain2
  · rw [calculate_qualification_scores]
    dsimp only
    exact hbud2
  · rw [calculate_qualification_scores]
    dsimp only
    exact htime2
  · rw [calculate_qualification_scores]
    dsimp only
    exact htech2
  · rw [calculate_qualification_scores]
    dsimp only
    rw [hpain2, hbud2, htime2, htech2]
    decide
  · rw [calculate_qualification_scores]
    dsimp only
    rw [hpain2, hbud2, htime2, htech2]
    decide
  · have h : ((10 : ℚ) * ((3/10) * 4 + (3/10) * 8 + (2/10) * 8 + (2/10) * 9))
        = ((70 : ℤ) : ℚ) := by norm_num
    rw [h, round_intCast]

/-- C6. For every intake record, the qualification status is `qualified`
iff the overall score is at least 70, `nurture` iff it is in `[50, 70)`,
`pending_review` iff it is in `[30, 50)`, and `disqualified` iff it is
below 30 (inclusive lower bounds). -/
theorem qualification_status_thresholds (cd : DiscoveryCallData) :
    ((calculate_qualification_scores cd).status = .qualified
        ↔ 70 ≤ (calculate_qualification_scores cd).overall_score)
    ∧ ((calculate_qualification_scores cd).status = .nurture
        ↔ 50 ≤ (calculate_qualification_scores cd).overall_score
          ∧ (calculate_qualification_scores cd).overall_score < 70)
    ∧ ((calculate_qualification_scores cd).status = .pending_review
        ↔ 30 ≤ (calculate_qualification_scores cd).overall_score
          ∧ (calculate_qualification_scores cd).overall_score < 50)
    ∧ ((calculate_qualification_scores cd).status = .disqualified
        ↔ (calculate_qualification_scores cd).overall_score < 30) :=
  qualification_status_iff (calculate_qualification_scores cd).overall_score

/-! ### Pricing (`_calculate_project_pricing`) -/

/-- The `ServiceConfiguration` dataclass (the `customizations` dict is
carried nowhere into pricing and is omitted). -/
structure ServiceConfiguration where
  service_id : Nat
  service_name : String
  service_category : String
  base_price : ℚ
  base_hours_required : Nat
  quantity : Nat
  deriving DecidableEq

/-- The `PricingBreakdown` dataclass. -/
structure PricingBreakdown where
  base_services_cost : ℚ
  additional_services_cost : ℚ
  complexity_adjustments : ℚ
  discounts_applied : ℚ
  total_project_cost : ℚ
  estimated_hours : Nat
  effective_hourly_rate : ℚ
  deriving DecidableEq

/-- The `size_adjustments` table with its `.get(..., 0.0)` default. -/
def size_adjustments (s : String) : ℚ :=
  if s = "1-10" then -15/100
  else if s = "11-50" then -5/100
  else if s = "51-200" then 0
  else if s = "201-500" then 10/100
  else if s = "501-1000" then 15/100
  else if s = "1000+" then 20/100
  else 0

/-- The `industry_premiums` table; the source adds a premium only when the
lower-cased industry is a key of the dict, so missing keys contribute 0. -/
def industry_premium (s : String) : ℚ :=
  if s = "healthcare" then 15/100
  else if s = "finance" then 20/100
  else if s = "government" then 25/100
  else 0

/-- The `urgency_premiums` table with its `.get(..., 0.0)` default. -/
def urgency_premium (s : String) : ℚ :=
  if s = "immediate" then 25/100
  else if s = "1_month" then 15/100
  else if s = "3_months" then 5/100
  else if s = "6_months" then 0
  else if s = "12_months" then -5/100
  else 0

/-- Embedding of `_calculate_project_pricing`. -/
def calculate_project_pricing (call_data : DiscoveryCallData)
    (services : List ServiceConfiguration) : PricingBreakdown :=
  let base_cost := (services.map (fun s => s.base_price * (s.quantity : ℚ))).sum
  let total_hours := (services.map (fun s => s.base_hours_required * s.quantity)).sum
  let complexity_adjustment : ℚ := 0
  let complexity_adjustment :=
    complexity_adjustment + base_cost * size_adjustments call_data.company_size
  let complexity_adjustment :=
    complexity_adjustment + base_cost * industry_premium call_data.industry.toLower
  let complexity_adjustment :=
    complexity_adjustment + base_cost * urgency_premium call_data.timeline_urgency
  let discounts : ℚ := 0
  let discounts := discounts +
    (if base_cost > 200000 then base_cost * (10/100)
     else if base_cost > 100000 then base_cost * (5/100)
     else 0)
  let discounts := discounts + base_cost * (5/100)
  let additional_services_cost : ℚ := 0
  let total_cost := base_cost + additional_services_cost + complexity_adjustment - discounts
  let total_cost := max total_cost 25000
  { base_services_cost := base_cost
    additional_services_cost := additional_services_cost
    complexity_adjustments := complexity_adjustment
    discounts_applied := discounts
    total_project_cost := total_cost
    estimated_hours := total_hours
    effective_hourly_rate := if total_hours > 0 then total_cost / total_hours else 0 }

/-- C2. The total project cost equals
`max(base + additional + adjustment - discounts, 25000)` for the very
values recorded in the returned breakdown, and whenever that signed sum is
below 25000 the total is exactly 25000 (the pricing floor). -/
theorem pricing_total_floored (call_data : DiscoveryCallData)
    (services : List ServiceConfiguration) :
    (calculate_project_pricing call_data services).total_project_cost =
      max ((calculate_project_pricing call_data services).base_services_cost
        + (calculate_project_pricing call_data services).additional_services_cost
        + (calculate_project_pricing call_data services).complexity_adjustments
        - (calculate_project_pricing call_data services).discounts_applied) 25000
    ∧ ((calculate_project_pricing call_data services).base_services_cost
        + (calculate_project_pricing call_data services).additional_services_cost
        + (calculate_project_pricing call_data services).complexity_adjustments
        - (calculate_project_pricing call_data services).discounts_applied < 25000 →
      (calculate_project_pricing call_data services).total_project_cost = 25000) := by
  simp only [calculate_project_pricing]
  exact ⟨trivial, fun h => max_eq_right (le_of_lt h)⟩

/-- An intake record whose pricing inputs contribute no adjustment, used to
exercise the pricing floor on an empty service selection. -/
def floor_example_call : DiscoveryCallData :=
  { company_size := "51-200"
    industry := "technology"
    decision_maker_name := none
    time_waste_hours_weekly := 0
    estimated_cost_inefficiency := 0
    team_size_affected := 0
    budget_range := "not_disclosed"
    timeline_urgency := "6_months" }

/-- Witness for C2: with no selected services the signed sum is 0, below
25000, and the computed total is exactly 25000. -/
theorem pricing_total_floored_witness :
    ((calculate_project_pricing floor_example_call []).base_services_cost
      + (calculate_project_pricing floor_example_call []).additional_services_cost
      + (calculate_project_pricing floor_example_call []).complexity_adjustments
      - (calculate_project_pricing floor_example_call []).discounts_applied < 25000)
    ∧ (calculate_project_pricing floor_example_call []).total_project_cost = 25000 :=
  ⟨by norm_num [calculate_project_pricing, floor_example_call, size_adjustments,
      industry_premium, urgency_premium],
    (pricing_total_floored floor_example_call []).2
      (by norm_num [calculate_project_pricing, floor_example_call, size_adjustments,
        industry_premium, urgency_premium])⟩

/-! ### Payment schedule (`_create_payment_schedule`) -/

/-- One milestone dict of the payment schedule. -/
structure PaymentMilestone where
  milestone : String
  percentage : ℚ
  amount : ℚ
  description : String
  deriving DecidableEq

/-- Embedding of `_create_payment_schedule`.  The decimal factors `0.5`,
`0.3`, `0.4`, `0.25` are the exact rationals `5/10`, `3/10`, `4/10`,
`25/100`; `num_services` is accepted but never read, as in the source. -/
def create_payment_schedule (total_cost : ℚ) (num_services : Nat) :
    List PaymentMilestone :=
  if total_cost < 50000 then
    [ { milestone := "Project Start", percentage := 50,
        amount := total_cost * (5/10),
        description := "Initial payment to begin project development" },
      { milestone := "Project Completion", percentage := 50,
        amount := total_cost * (5/10),
        description := "Final payment upon successful project delivery" } ]
  else if total_cost < 150000 then
    [ { milestone := "Project Start", percentage := 30,
        amount := total_cost * (3/10),
        description := "Initial payment to begin project development" },
      { milestone := "Development Milestone", percentage := 40,
        amount := total_cost * (4/10),
        description := "Payment upon completion of core development" },
      { milestone := "Project Completion", percentage := 30,
        amount := total_cost * (3/10),
        description := "Final payment upon successful project delivery" } ]
  else
    [ { milestone := "Project Start", percentage := 25,
        amount := total_cost * (25/100),
        description := "Initial payment to begin project development" },
      { milestone := "Development Phase 1", percentage := 25,
        amount := total_cost * (25/100),
        description := "Payment upon completion of phase 1 development" },
      { milestone := "Development Phase 2", percentage := 25,
        amount := total_cost * (25/100),
        description := "Payment upon completion of phase 2 development" },
      { milestone := "Project Completion", percentage := 25,
        amount := total_cost * (25/100),
        description := "Final payment upon successful project delivery" } ]

/-- C3. The schedule is `[50%, 50%]` below 50000, `[30%, 40%, 30%]` from
50000 up to (excluding) 150000, and `[25%, 25%, 25%, 25%]` from 150000 on;
every milestone's amount is its percentage of the total, the percentages
sum to 100, and the amounts sum to the total. -/
theorem payment_schedule_tiers (total_cost : ℚ) (num_services : Nat) :
    (total_cost < 50000 →
      (create_payment_schedule total_cost num_services).map PaymentMilestone.percentage
        = [50, 50])
    ∧ (50000 ≤ total_cost → total_cost < 150000 →
      (create_payment_schedule total_cost num_services).map PaymentMilestone.percentage
        = [30, 40, 30])
    ∧ (150000 ≤ total_cost →
      (create_payment_schedule total_cost num_services).map PaymentMilestone.percentage
        = [25, 25, 25, 25])
    ∧ (∀ m ∈ create_payment_schedule total_cost num_services,
        m.amount = m.percentage / 100 * total_cost)
    ∧ ((create_payment_schedule total_cost num_services).map PaymentMilestone.percentage).sum
        = 100
    ∧ ((create_payment_schedule total_cost num_services).map PaymentMilestone.amount).sum
        = total_cost := by
  rw [create_payment_schedule]
  split <;> rename_i h1
  · refine ⟨fun _ => rfl, fun h2 _ => absurd h1 (not_lt.mpr h2),
      fun h2 => absurd h1 (not_lt.mpr (by linarith)), ?_, by norm_num, ?_⟩
    · rintro m hm
      simp only [List.mem_cons, List.not_mem_nil, or_false] at hm
      rcases hm with rfl | rfl <;> ring
    · simp only [List.map_cons, List.map_nil, List.sum_cons, List.sum_nil]
      ring
  · split <;> rename_i h2
    · refine ⟨fun h3 => absurd h3 h1, fun _ _ => rfl,
        fun h3 => absurd h2 (not_lt.mpr h3), ?_, by norm_num, ?_⟩
      · rintro m hm
        simp only [List.mem_cons, List.not_mem_nil, or_false] at hm
        rcases hm with rfl | rfl | rfl <;> ring
      · simp only [List.map_cons, List.map_nil, List.sum_cons, List.sum_nil]
        ring
    · refine ⟨fun h3 => absurd h3 h1, fun _ h3 => absurd h3 h2, fun _ => rfl, ?_,
        by norm_num, ?_⟩
      · rintro m hm
        simp only [List.mem_cons, List.not_mem_nil, or_false] at hm
        rcases hm with rfl | rfl | rfl | rfl <;> ring
      · simp only [List.map_cons, List.map_nil, List.sum_cons, List.sum_nil]
        ring

/-- Witness for C3 at total cost 80000 (the spec's own example): the middle
tier applies and the percentages are 30/40/30. -/
theorem payment_schedule_tiers_witness :
    ((50000 : ℚ) ≤ 80000)
    ∧ ((80000 : ℚ) < 150000)
    ∧ (create_payment_schedule 80000 1).map PaymentMilestone.percentage = [30, 40, 30] :=
  ⟨by norm_num, by norm_num,
    (payment_schedule_tiers 80000 1).2.1 (by norm_num) (by norm_num)⟩

/-! ### Contract generation (`generate_contract_from_sow`,
`_generate_contract_content`) -/

/-- One row of the `SELECT s.*, d.* FROM generated_sows s JOIN
discovery_calls d ...` join, restricted to the columns the contract
generator reads. -/
structure SowJoinRow where
  sow_id : Nat
  sow_status : String
  company_name : String
  primary_contact_name : String
  primary_contact_title : String
  primary_contact_email : String
  project_title : String
  project_description : String
  total_project_cost : ℚ
  timeline_weeks : Nat
  deliverables : String
  payment_schedule : String
  deriving DecidableEq

/-- A `contract_templates` row. -/
structure ContractTemplate where
  template_id : Nat
  template_content : String
  governing_law : String
  liability_cap_percentage : ℚ
  warranty_period_months : Nat
  deriving DecidableEq

/-- A `generated_contracts` row, restricted to the columns the embedded
insert would populate with data relevant to the claims. -/
structure ContractRecord where
  contract_id : Nat
  sow_id : Nat
  template_id : Nat
  contract_number : String
  contract_content : String
  contract_hash : String
  deriving DecidableEq

/-- The tables `generate_contract_from_sow` touches. -/
structure ContractEngineState where
  sows : List SowJoinRow
  contract_templates : List ContractTemplate
  generated_contracts : List ContractRecord
  deriving DecidableEq

/-- Embedding of `_generate_contract_content`.

The method builds a `variables` dict and then runs a replacement loop.
Python evaluates the dict literal entry by entry; the `PAYMENT_TERMS`
entry is `sow_data.get('payment_terms', '30 days')`, but `sow_data` is a
`sqlite3.Row`, and `sqlite3.Row` objects expose `keys()` and item access
only — they have no `get` method.  Evaluating that entry therefore raises
`AttributeError: 'sqlite3.Row' object has no attribute 'get'` before the
dict is completed, so the replacement loop never runs and the method never
returns a rendered string, for every input. -/
def generate_contract_content (now : Clock) (sow_data : SowJoinRow)
    (template : ContractTemplate) : Except PyError String :=
  Except.error PyError.attributeError

/-- Embedding of `generate_contract_from_sow`.  The source signals every
failure by returning `None` from the enclosing `try`/`except`; the embedded
result pairs the returned `Optional[int]` with the table state after the
call.  `sha256_hexdigest` stands for the external
`hashlib.sha256(...).hexdigest()` library function, applied to the rendered
content on the (unreachable) success path. -/
def generate_contract_from_sow (now : Clock) (sha256_hexdigest : String → String)
    (st : ContractEngineState) (sow_id template_id : Nat) :
    Option Nat × ContractEngineState :=
  match st.sows.find? (fun s => s.sow_id == sow_id) with
  | none => (none, st)
  | some sow_data =>
    if sow_data.sow_status ≠ "approved" then
      (none, st)
    else
      match st.contract_templates.find? (fun t => t.template_id == template_id) with
      | none => (none, st)
      | some template =>
        match generate_contract_content now sow_data template with
        | .error _ => (none, st)
        | .ok contract_content =>
          let contract_number := "ENT-" ++ now.yyyymm ++ "-" ++ pad 4 sow_id
          let contract_id := st.generated_contracts.length + 1
          (some contract_id,
            { st with generated_contracts := st.generated_contracts ++
                [{ contract_id := contract_id
                   sow_id := sow_id
                   template_id := template_id
                   contract_number := contract_number
                   contract_content := contract_content
                   contract_hash := sha256_hexdigest contract_content }] })

/-- C1.  The claim says generation succeeds from an `approved` proposal and
fails (persisting nothing) from any other status.  The second half matches
the source, but the first does not: because `_generate_contract_content`
always raises `AttributeError` (see its doc-string), `generate_contract_from_sow`
returns `None` and leaves every table unchanged for every state, every SOW
and every template — including an approved SOW with its template present. -/
theorem contract_generation_never_succeeds (now : Clock)
    (sha256_hexdigest : String → String) (st : ContractEngineState)
    (sow_id template_id : Nat) :
    generate_contract_from_sow now sha256_hexdigest st sow_id template_id = (none, st) := by
  rw [generate_contract_from_sow]
  split
  · rfl
  · split
    · rfl
    · split
      · rfl
      · rfl

/-- An approved SOW row used to evaluate contract generation concretely. -/
def approved_sow : SowJoinRow :=
  { sow_id := 1
    sow_status := "approved"
    company_name := "Acme Manufacturing"
    primary_contact_name := "Dana Lee"
    primary_contact_title := "COO"
    primary_contact_email := "dana@acme.example"
    project_title := "Acme Manufacturing - Business Process Automation & Optimization"
    project_description := "Automation of intake and billing workflows."
    total_project_cost := 60000
    timeline_weeks := 8
    deliverables := "Custom automation workflows and business logic"
    payment_schedule := "[]" }

/-- A contract template whose body contains no placeholder token at all, so
that every token present in it (vacuously all of them) is matched by the
substitution set. -/
def fully_matched_template : ContractTemplate :=
  { template_id := 1
    template_content := "SERVICE AGREEMENT between Entelech LLC and the client."
    governing_law := "Virginia"
    liability_cap_percentage := 100
    warranty_period_months := 3 }

/-- A state holding exactly the approved SOW and its template, with no
contract yet. -/
def approved_sow_state : ContractEngineState :=
  { sows := [approved_sow]
    contract_templates := [fully_matched_template]
    generated_contracts := [] }

/-- A pinned clock for concrete evaluations. -/
def pinned_clock : Clock :=
  { yyyymm := "202501"
    yymm := "2501"
    longDate := "January 15, 2025"
    yyyymmdd := "20250115"
    today := 20103 }

/-- C4.  The claim says every placeholder token of the template is replaced
in the rendered contract and an unmatched token aborts generation with a
`ComputationError`.  In the source the replacement loop is never reached:
even for an approved SOW and a template with no unmatchable token,
generation aborts with `AttributeError` (the `sqlite3.Row.get` call) and
persists no contract — there is never a rendered contract, and the
loop itself (had it run) checks nothing and raises no `ComputationError`
for leftover tokens.  The identity function stands in for the hash, which
is never applied on this path. -/
theorem contract_render_aborts_even_when_fully_matched :
    generate_contract_from_sow pinned_clock (fun s => s) approved_sow_state 1 1
      = (none, approved_sow_state)
    ∧ approved_sow.sow_status = "approved"
    ∧ (generate_contract_from_sow pinned_clock (fun s => s) approved_sow_state 1 1).2.generated_contracts = [] :=
  ⟨rfl, rfl, rfl⟩

/-- C8.  The claim says re-rendering identical inputs reproduces the same
text and digest.  In the source no rendered text and no digest ever exist:
for every clock, SOW row and template, `_generate_contract_content` raises
`AttributeError` (deterministically — both of two identical runs fail the
same way and store nothing). -/
theorem contract_rendering_always_raises (now : Clock) (sow_data : SowJoinRow)
    (template : ContractTemplate) :
    generate_contract_content now sow_data template
      = Except.error PyError.attributeError := rfl

/-! ### Project kickoff (`trigger_project_kickoff`,
`_select_kickoff_template`, the kickoff-task seeding) -/

/-- One entry of the `included_services` JSON list stored on a SOW; the
source reads it with `service.get('service_category', '')`, so the key may
be absent. -/
structure IncludedService where
  service_category : Option String
  deriving DecidableEq

/-- One row of the `SELECT c.*, s.project_title, s.included_services` join,
restricted to the columns the kickoff trigger reads
(`included_services` already parsed by `json.loads`). -/
structure ContractJoinRow where
  contract_id : Nat
  project_title : String
  included_services : List IncludedService
  deriving DecidableEq

/-- A `payment_configurations` row (columns used by the kickoff check). -/
structure PaymentConfigRow where
  config_id : Nat
  contract_id : Nat
  deriving DecidableEq

/-- A `payment_transactions` row (columns used by the kickoff check). -/
structure PaymentTransactionRow where
  config_id : Nat
  transaction_type : String
  transaction_status : String
  deriving DecidableEq

/-- A `kickoff_templates` row; `initial_deliverables` already parsed by
`json.loads`. -/
structure KickoffTemplateRow where
  template_id : Nat
  initial_deliverables : List String
  deriving DecidableEq

/-- A `project_kickoffs` row.  `kickoff_deliverables` is NULL on insert
(modelled as `[]`) and filled in by the task-seeding update when the
kickoff template exists. -/
structure ProjectKickoffRow where
  kickoff_id : Nat
  contract_id : Nat
  template_id : Nat
  project_code : String
  project_name : String
  project_manager : String
  kickoff_scheduled_date : Nat
  kickoff_deliverables : List String
  deriving DecidableEq

/-- The tables `trigger_project_kickoff` touches. -/
structure KickoffEngineState where
  contracts : List ContractJoinRow
  payment_configurations : List PaymentConfigRow
  payment_transactions : List PaymentTransactionRow
  kickoff_templates : List KickoffTemplateRow
  project_kickoffs : List ProjectKickoffRow
  deriving DecidableEq

/-- Embedding of `_select_kickoff_template`: the category list (with the
`.get(..., '')` default) decides among templates 1, 2, 3.  The source
compares `len(categories) > 2`, counting entries, not distinct values. -/
def select_kickoff_template (services : List IncludedService) : Nat :=
  let categories := services.map (fun s => s.service_category.getD "")
  if categories.contains "automation_development" ∧ categories.length > 2 then 1
  else if categories.contains "automation_development" then 2
  else 3

/-- The `COUNT(*)` of the join of `payment_configurations` and
`payment_transactions` for a contract, restricted to completed
`payment`-type transactions. -/
def completed_payment_count (st : KickoffEngineState) (contract_id : Nat) : Nat :=
  ((st.payment_configurations.filter (fun pc => pc.contract_id == contract_id)).flatMap
    (fun pc => st.payment_transactions.filter
      (fun pt => pt.config_id == pc.config_id
        && pt.transaction_status == "completed"
        && pt.transaction_type == "payment"))).length

/-- The kickoff row as it stands after the insert and the task-seeding
update of `trigger_project_kickoff` (the source inserts the row with NULL
deliverables, then `UPDATE`s `kickoff_deliverables` from the kickoff
template when that template row exists; a missing template is skipped
silently). -/
def built_kickoff_record (now : Clock) (st : KickoffEngineState)
    (contract_id : Nat) (contract_data : ContractJoinRow) : ProjectKickoffRow :=
  let template_id := select_kickoff_template contract_data.included_services
  let base : ProjectKickoffRow :=
    { kickoff_id := st.project_kickoffs.length + 1
      contract_id := contract_id
      template_id := template_id
      project_code := "ENT" ++ now.yymm ++ pad 3 contract_id
      project_name := contract_data.project_title
      project_manager := "Alex Thompson"
      kickoff_scheduled_date := now.today + 3
      kickoff_deliverables := [] }
  match st.kickoff_templates.find? (fun t => t.template_id == template_id) with
  | some tpl => { base with kickoff_deliverables := tpl.initial_deliverables }
  | none => base

/-- Embedding of `trigger_project_kickoff`: missing contract or zero
completed payments return `None` without touching any table; otherwise the
kickoff row is created (and its tasks seeded) and its id returned. -/
def trigger_project_kickoff (now : Clock) (st : KickoffEngineState)
    (contract_id : Nat) : Option Nat × KickoffEngineState :=
  match st.contracts.find? (fun c => c.contract_id == contract_id) with
  | none => (none, st)
  | some contract_data =>
    if completed_payment_count st contract_id = 0 then
      (none, st)
    else
      let record := built_kickoff_record now st contract_id contract_data
      (some record.kickoff_id,
        { st with project_kickoffs := st.project_kickoffs ++ [record] })

/-- C7.  For a contract with zero completed `payment`-type transactions the
kickoff trigger is a no-op returning `None` (the deferred outcome — the
source returns from inside its `try`, raising nothing) and persists no
kickoff row; with at least one completed payment it creates and returns a
new kickoff row whose deliverables are copied from the selected kickoff
template, hence non-empty whenever that template's seeded list is. -/
theorem kickoff_requires_completed_payment (now : Clock)
    (st : KickoffEngineState) (contract_id : Nat)
    (contract_data : ContractJoinRow)
    (hfind : st.contracts.find? (fun c => c.contract_id == contract_id)
      = some contract_data) :
    (completed_payment_count st contract_id = 0 →
      trigger_project_kickoff now st contract_id = (none, st))
    ∧ (completed_payment_count st contract_id ≠ 0 →
      ∀ tpl, st.kickoff_templates.find?
          (fun t => t.template_id
            == select_kickoff_template contract_data.included_services)
        = some tpl →
        trigger_project_kickoff now st contract_id
          = (some (st.project_kickoffs.length + 1),
            { st with project_kickoffs := st.project_kickoffs
                ++ [built_kickoff_record now st contract_id contract_data] })
        ∧ (built_kickoff_record now st contract_id contract_data).kickoff_deliverables
            = tpl.initial_deliverables
        ∧ (tpl.initial_deliverables ≠ [] →
          (built_kickoff_record now st contract_id contract_data).kickoff_deliverables
            ≠ [])) := by
  constructor
  · intro hzero
    simp only [trigger_project_kickoff, hfind, hzero, if_pos]
  · intro hnz tpl htpl
    have hrec : (built_kickoff_record now st contract_id contract_data).kickoff_deliverables
        = tpl.initial_deliverables := by
      simp only [built_kickoff_record, htpl]
    have hid : (built_kickoff_record now st contract_id contract_data).kickoff_id
        = st.project_kickoffs.length + 1 := by
      simp only [built_kickoff_record, htpl]
    refine ⟨?_, hrec, fun hne => hrec.symm ▸ hne⟩
    simp only [trigger_project_kickoff, hfind]
    rw [if_neg hnz, hid]

/-- A contract (joined with its SOW columns) whose single included service
is `automation_development`, selecting kickoff template 2. -/
def kickoff_contract : ContractJoinRow :=
  { contract_id := 1
    project_title := "Acme Manufacturing - Business Process Automation & Optimization"
    included_services := [{ service_category := some "automation_development" }] }

/-- Kickoff template 2 with a non-empty seeded deliverable list. -/
def kickoff_template_two : KickoffTemplateRow :=
  { template_id := 2
    initial_deliverables :=
      ["Schedule kickoff call", "Collect system access credentials"] }

/-- A state where contract 1 has one completed `payment` transaction. -/
def kickoff_state_paid : KickoffEngineState :=
  { contracts := [kickoff_contract]
    payment_configurations := [{ config_id := 1, contract_id := 1 }]
    payment_transactions :=
      [{ config_id := 1, transaction_type := "payment",
         transaction_status := "completed" }]
    kickoff_templates := [kickoff_template_two]
    project_kickoffs := [] }

/-- The same state with no payment transaction at all. -/
def kickoff_state_unpaid : KickoffEngineState :=
  { kickoff_state_paid with payment_transactions := [] }

/-- Witness for C7: with no completed payment the trigger returns `None`
and the state is untouched; with one completed payment it returns kickoff
id 1, appends exactly the built row, and that row's seeded deliverable list
is non-empty. -/
theorem kickoff_requires_completed_payment_witness :
    trigger_project_kickoff pinned_clock kickoff_state_unpaid 1
      = (none, kickoff_state_unpaid)
    ∧ trigger_project_kickoff pinned_clock kickoff_state_paid 1
      = (some 1,
        { kickoff_state_paid with project_kickoffs :=
            [built_kickoff_record pinned_clock kickoff_state_paid 1 kickoff_contract] })
    ∧ (built_kickoff_record pinned_clock kickoff_state_paid 1
        kickoff_contract).kickoff_deliverables ≠ [] := by
  refine ⟨(kickoff_requires_completed_payment pinned_clock kickoff_state_unpaid 1
      kickoff_contract rfl).1 rfl, ?_, ?_⟩
  · exact ((kickoff_requires_completed_payment pinned_clock kickoff_state_paid 1
      kickoff_contract rfl).2 (by decide) kickoff_template_two rfl).1
  · exact ((kickoff_requires_completed_payment pinned_clock kickoff_state_paid 1
      kickoff_contract rfl).2 (by decide) kickoff_template_two rfl).2.2 (by decide)

/-! ### Workflow status retrieval (`get_workflow_status`) -/

/-- A `workflow_automation_log` row (columns used by the status query). -/
structure WorkflowLogRow where
  log_id : Nat
  process_type : String
  automation_action : String
  automation_status : String
  created_at : Nat
  deriving DecidableEq

/-- The `ORDER BY created_at DESC` order: `a` comes no later than `b` in
the output when `a` was created no earlier than `b`. -/
def later_first (a b : WorkflowLogRow) : Prop := b.created_at ≤ a.created_at

instance : DecidableRel later_first := fun a b => Nat.decLe b.created_at a.created_at

instance : IsTotal WorkflowLogRow later_first :=
  ⟨fun a b => Nat.le_total b.created_at a.created_at⟩

instance : IsTrans WorkflowLogRow later_first :=
  ⟨fun _ _ _ h1 h2 => le_trans h2 h1⟩

/-- The `WHERE` clause built by `get_workflow_status`: each filter is added
only when the corresponding argument is truthy (`None` and `""` are both
falsy in Python, so neither adds a filter). -/
def matching_log_rows (log : List WorkflowLogRow)
    (process_type status : Option String) : List WorkflowLogRow :=
  let rows := log
  let rows := match process_type with
    | some p => if p ≠ "" then rows.filter (fun r => r.process_type == p) else rows
    | none => rows
  match status with
  | some s => if s ≠ "" then rows.filter (fun r => r.automation_status == s) else rows
  | none => rows

/-- Embedding of `get_workflow_status`: the filtered rows, ordered by
`created_at DESC` and truncated by `LIMIT 100`.  SQLite leaves the order of
rows with equal `created_at` unspecified; the sort here fixes one such
order, and the properties proved about the query do not depend on the
choice. -/
def get_workflow_status (log : List WorkflowLogRow)
    (process_type status : Option String) : List WorkflowLogRow :=
  ((matching_log_rows log process_type status).insertionSort later_first).take 100

/-- C10.  For every log state and every process-type/status filter, the
workflow-status query returns `min(matched, 100)` entries — so at most 100,
even when more rows match — and they are ordered most recent first. -/
theorem workflow_status_capped_at_100 (log : List WorkflowLogRow)
    (process_type status : Option String) :
    (get_workflow_status log process_type status).length
      = min (matching_log_rows log process_type status).length 100
    ∧ (get_workflow_status log process_type status).length ≤ 100
    ∧ (get_workflow_status log process_type status).Sorted later_first := by
  refine ⟨?_, ?_, ?_⟩
  · rw [get_workflow_status, List.length_take, List.length_insertionSort, Nat.min_comm]
  · rw [get_workflow_status]
    exact List.length_take_le _ _
  · exact List.Pairwise.sublist (List.take_sublist _ _)
      (List.sorted_insertionSort later_first _)

/-! ### Sales-process analytics (`get_sales_process_analytics`) -/

/-- The `conversion_rates` record computed at the end of
`get_sales_process_analytics` from the four stage counts. -/
structure ConversionRates where
  call_to_qualified : ℚ
  qualified_to_sow : ℚ
  sow_to_contract : ℚ
  overall_conversion : ℚ
  deriving DecidableEq

/-- Embedding of the conversion-rate block (each rate is 0 when its
denominator is 0, mirroring the `if ... > 0 else 0` conditionals). -/
def conversion_rates (total_calls qualified_calls approved_sows
    executed_contracts : Nat) : ConversionRates :=
  { call_to_qualified :=
      if total_calls > 0 then (qualified_calls : ℚ) / total_calls * 100 else 0
    qualified_to_sow :=
      if qualified_calls > 0 then (approved_sows : ℚ) / qualified_calls * 100 else 0
    sow_to_contract :=
      if approved_sows > 0 then (executed_contracts : ℚ) / approved_sows * 100 else 0
    overall_conversion :=
      if total_calls > 0 then (executed_contracts : ℚ) / total_calls * 100 else 0 }

/-- The per-field reading of `conversion_rates`: each stage rate is the
ratio to the prior stage times 100, and 0 when the denominator is 0. -/
theorem conversion_rates_formula (c q s e : Nat) :
    ((conversion_rates c q s e).call_to_qualified
      = if 0 < c then (q : ℚ) / c * 100 else 0)
    ∧ ((conversion_rates c q s e).qualified_to_sow
      = if 0 < q then (s : ℚ) / q * 100 else 0)
    ∧ ((conversion_rates c q s e).sow_to_contract
      = if 0 < s then (e : ℚ) / s * 100 else 0)
    ∧ ((conversion_rates c q s e).overall_conversion
      = if 0 < c then (e : ℚ) / c * 100 else 0) :=
  ⟨rfl, rfl, rfl, rfl⟩

/-- A `discovery_calls` row as the analytics aggregates see it. -/
structure DiscoveryCallStatsRow where
  call_date : Nat
  qualified_status : String
  overall_qualification_score : ℚ
  deriving DecidableEq

/-- A `generated_sows` row joined to its call date. -/
structure SowStatsRow where
  call_date : Nat
  sow_status : String
  total_project_cost : ℚ
  deriving DecidableEq

/-- A `generated_contracts` row joined to its call date. -/
structure ContractStatsRow where
  call_date : Nat
  contract_status : String
  total_contract_value : ℚ
  fully_executed_at : Option Nat
  sent_for_signature_at : Option Nat
  deriving DecidableEq

/-- The tables `get_sales_process_analytics` reads. -/
structure AnalyticsDb where
  discovery_calls : List DiscoveryCallStatsRow
  generated_sows : List SowStatsRow
  generated_contracts : List ContractStatsRow
  deriving DecidableEq

/-- Embedding of `get_sales_process_analytics`.

The method runs four aggregate queries before assembling
`conversion_rates`.  The third query (contract-execution statistics)
computes `AVG(CASE WHEN fully_executed_at IS NOT NULL THEN
DATEDIFF(fully_executed_at, sent_for_signature_at) ...)`.  `DATEDIFF` is a
MySQL function; SQLite — the engine `sqlite3.connect` provides — has no
such function and no `create_function` call registers one, so
`cursor.execute` raises `sqlite3.OperationalError: no such function:
DATEDIFF` while preparing the statement, regardless of the tables'
contents.  The method has no exception handler, so the error propagates
and the conversion-rate block is never reached. -/
def get_sales_process_analytics (db : AnalyticsDb) (date_range : Nat × Nat) :
    Except PyError ConversionRates :=
  Except.error PyError.operationalError

/-- C9.  The claim's funnel formulas (embedded as `conversion_rates`; see
`conversion_rates_formula`) match the source text and give 40/50/50/10 on
counts 10/4/2/1, but the method never reports them: for every database
state and date range it raises `OperationalError` at the `DATEDIFF` query
before the funnel is computed. -/
theorem analytics_raises_before_funnel (db : AnalyticsDb)
    (date_range : Nat × Nat) :
    get_sales_process_analytics db date_range
      = Except.error PyError.operationalError
    ∧ conversion_rates 10 4 2 1
      = { call_to_qualified := 40, qualified_to_sow := 50,
          sow_to_contract := 50, overall_conversion := 10 } := by
  refine ⟨rfl, ?_⟩
  norm_num [conversion_rates]
